import Mathlib

/-!
# Verification of the gwgen parameterization engine

Shallow embedding of the gwgen weather-generator parameterization code
(`gwgen/parameterization.py` and `gwgen/main.py`) together with proofs of
the behavioural claims about it.  Python floats are modelled by `ℚ`
(exact arithmetic), NaN-able cells by `Option ℚ`, numpy integer counts by
`ℕ`, and pandas dataframes by lists of rows.  External numerical fitting
routines (scipy) are modelled as oracle functions passed in as arguments;
a raised exception is modelled as the oracle returning `none`.
-/

set_option autoImplicit false

namespace Gwgen

/-! ## DailyCloud.calculate_daily : the wet-day flag

Embedding of the boolean condition in `DailyCloud.calculate_daily`:

    wet_day = (((ww >= 50) & (ww <= 75)) | (ww == 75) | (ww == 77) |
               (ww == 79) | ((ww >= 80) & (ww <= 99))).any().astype(int)
-/

/-- The per-hour present-weather test used by `DailyCloud.calculate_daily`,
including the (redundant) `ww == 75` disjunct of the source. -/
def wwWetCond (c : ℤ) : Bool :=
  ((50 ≤ c && c ≤ 75) || c == 75 || c == 77 || c == 79 ||
   (80 ≤ c && c ≤ 99))

/-- `wet_day` for one calendar day, from the list of hourly `ww` codes. -/
def wetDay (ww : List ℤ) : ℕ :=
  if ww.any wwWetCond then 1 else 0

/-- The set of codes the specification claims to be the wet codes. -/
def specWetCode (c : ℤ) : Prop :=
  (50 ≤ c ∧ c ≤ 75) ∨ c = 77 ∨ c = 79 ∨ (80 ≤ c ∧ c ≤ 99)

instance (c : ℤ) : Decidable (specWetCode c) := by
  unfold specWetCode; infer_instance

/-! ## TemperatureParameterizer.calc_monthly_props : temperature ranges

Embedding of the `trange_*` computations.  The source computes

    'trange_wet': (arr_tmax_wet - arr_tmax_wet).mean(),
    'trangestddev_wet': (arr_tmax_wet - arr_tmax_wet).std(),

i.e. the elementwise difference of the wet-day max-temperature array with
itself (and the analogue on dry days).  `numpy.mean` of an empty array is
NaN, hence `Option ℚ` results.  `numpy.std` is the square root of the
population variance; the square root is modelled by an arbitrary function
`sqrtFn` with `sqrtFn 0 = 0` (true of any square-root implementation). -/

/-- `numpy.ndarray.mean`: NaN (`none`) on the empty array. -/
def npMean (xs : List ℚ) : Option ℚ :=
  if xs.isEmpty then none else some (xs.sum / xs.length)

/-- The population variance `((xs - xs.mean())**2).mean()`;
`numpy.std` is its square root. -/
def npVar (xs : List ℚ) : Option ℚ :=
  npMean (xs.map (fun x => (x - (xs.sum / xs.length)) ^ 2))

/-- `numpy.ndarray.std`, with the square root supplied as `sqrtFn`. -/
def npStd (sqrtFn : ℚ → ℚ) (xs : List ℚ) : Option ℚ :=
  (npVar xs).map sqrtFn

/-- One row of the daily input of `calc_monthly_props`:
precipitation, min and max temperature. -/
structure TempRow where
  prcp : ℚ
  tmin : ℚ
  tmax : ℚ
  deriving DecidableEq, Repr

/-- `arr_tmax[wet]` : max temperatures of days with `prcp > 0`. -/
def tmaxWet (rows : List TempRow) : List ℚ :=
  (rows.filter (fun r => 0 < r.prcp)).map TempRow.tmax

/-- `arr_tmax[dry]` : max temperatures of days with `prcp == 0`. -/
def tmaxDry (rows : List TempRow) : List ℚ :=
  (rows.filter (fun r => r.prcp = 0)).map TempRow.tmax

/-- `arr - arr` : the elementwise difference of an array with itself,
as produced by `arr_tmax_wet - arr_tmax_wet` in the source. -/
def selfDiff (xs : List ℚ) : List ℚ :=
  List.zipWith (fun a b => a - b) xs xs

/-- `trange_wet` of `calc_monthly_props`. -/
def trange_wet (rows : List TempRow) : Option ℚ :=
  npMean (selfDiff (tmaxWet rows))

/-- `trangestddev_wet` of `calc_monthly_props`. -/
def trangestddev_wet (sqrtFn : ℚ → ℚ) (rows : List TempRow) : Option ℚ :=
  npStd sqrtFn (selfDiff (tmaxWet rows))

/-- `trange_dry` of `calc_monthly_props`. -/
def trange_dry (rows : List TempRow) : Option ℚ :=
  npMean (selfDiff (tmaxDry rows))

/-- `trangestddev_dry` of `calc_monthly_props`. -/
def trangestddev_dry (sqrtFn : ℚ → ℚ) (rows : List TempRow) : Option ℚ :=
  npStd sqrtFn (selfDiff (tmaxDry rows))

/-! ## MarkovChain : transition-probability counts and ratios

Embedding of `MarkovChain.calc_ndays` and
`MarkovChain.calculate_probabilities`.  A pooled `(year, month)` group is
a list of daily precipitation values (`ℚ`; a NaN cell of the source is
modelled by any value that is neither `> 0` nor `= 0`, e.g. a negative
rational, since NaN fails both numpy comparisons). -/

/-- Count the indices `i < len - 1` whose pair `(vals[i], vals[i+1])`
satisfies `p`; this realises numpy expressions of the shape
`(vals[:-1] ... & vals[1:] ...).sum()`. -/
def countPairs (vals : List ℚ) (p : ℚ → ℚ → Bool) : ℕ :=
  ((List.range (vals.length - 1)).filter
    (fun i => p (vals.getD i 0) (vals.getD (i + 1) 0))).length

/-- Count the indices `i < len - 2` whose triple satisfies `p`; this
realises `(vals[:-2] ... & vals[1:-1] ... & vals[2:] ...).sum()`. -/
def countTriples (vals : List ℚ) (p : ℚ → ℚ → ℚ → Bool) : ℕ :=
  ((List.range (vals.length - 2)).filter
    (fun i => p (vals.getD i 0) (vals.getD (i + 1) 0)
                (vals.getD (i + 2) 0))).length

/-- A day is wet when `prcp > 0.0`. -/
def isWet (x : ℚ) : Bool := 0 < x

/-- A day is dry when `prcp == 0.0`. -/
def isDry (x : ℚ) : Bool := x == 0

/-- The nine per-group counts produced by `MarkovChain.calc_ndays`. -/
structure NdayCounts where
  n : ℕ
  nwet : ℕ
  ndry : ℕ
  np11 : ℕ
  np01 : ℕ
  np001 : ℕ
  np001_denom : ℕ
  np101 : ℕ
  np101_denom : ℕ
  deriving DecidableEq, Repr

/-- `MarkovChain.calc_ndays` for a non-empty group (pandas `groupby`
never passes an empty frame, so the `not len(df)` NaN branch of the
source is unreachable from `calculate_probabilities`). -/
def calc_ndays (vals : List ℚ) : NdayCounts where
  n := vals.length
  nwet := ((vals.dropLast).filter isWet).length
  ndry := ((vals.dropLast).filter isDry).length
  np11 := countPairs vals (fun a b => isWet a && isWet b)
  np01 := countPairs vals (fun a b => isDry a && isWet b)
  np001 := countTriples vals (fun a b c => isDry a && isDry b && isWet c)
  np001_denom :=
    countTriples vals (fun a b c => isDry a && isDry b && isWet c) +
    countTriples vals (fun a b c => isDry a && isDry b && isDry c)
  np101 := countTriples vals (fun a b c => isWet a && isDry b && isWet c)
  np101_denom :=
    countTriples vals (fun a b c => isWet a && isDry b && isWet c) +
    countTriples vals (fun a b c => isWet a && isDry b && isDry c)

/-- `g.apply(cls.calc_ndays).sum()` : the columnwise sum of the counts
over all pooled `(year, month)` groups. -/
def sumCounts (groups : List (List ℚ)) : NdayCounts where
  n := (groups.map (fun g => (calc_ndays g).n)).sum
  nwet := (groups.map (fun g => (calc_ndays g).nwet)).sum
  ndry := (groups.map (fun g => (calc_ndays g).ndry)).sum
  np11 := (groups.map (fun g => (calc_ndays g).np11)).sum
  np01 := (groups.map (fun g => (calc_ndays g).np01)).sum
  np001 := (groups.map (fun g => (calc_ndays g).np001)).sum
  np001_denom := (groups.map (fun g => (calc_ndays g).np001_denom)).sum
  np101 := (groups.map (fun g => (calc_ndays g).np101)).sum
  np101_denom := (groups.map (fun g => (calc_ndays g).np101_denom)).sum

/-- The five emitted ratios of `MarkovChain.calculate_probabilities`. -/
structure MarkovRatios where
  p11 : ℚ
  p01 : ℚ
  p001 : ℚ
  p101 : ℚ
  wetf : ℚ
  deriving DecidableEq, Repr

/-- The ratio block of `calculate_probabilities`: each probability is the
quotient of its count by its denominator, or exactly `0` when the
denominator is `0`. -/
def markovRatios (groups : List (List ℚ)) : MarkovRatios :=
  let dfs := sumCounts groups
  { p11 := if dfs.nwet > 0 then (dfs.np11 : ℚ) / dfs.nwet else 0
    p01 := if dfs.ndry > 0 then (dfs.np01 : ℚ) / dfs.ndry else 0
    p001 := if dfs.np001_denom > 0 then (dfs.np001 : ℚ) / dfs.np001_denom
            else 0
    p101 := if dfs.np101_denom > 0 then (dfs.np101 : ℚ) / dfs.np101_denom
            else 0
    wetf := if dfs.n > 0 then (dfs.nwet : ℚ) / dfs.n else 0 }

/-- `MarkovChain.calculate_probabilities` for one station-month group:
the pooled `(year, month)` groups are `groups`; with more than 10 of
them the ratios are emitted, otherwise the result is the empty frame
(`none`). -/
def calculate_probabilities (groups : List (List ℚ)) :
    Option MarkovRatios :=
  if groups.length > 10 then some (markovRatios groups) else none

/-! ## PrcpDistParams.prcp_dist_params : Gamma / Generalized-Pareto fits

Embedding of `PrcpDistParams.prcp_dist_params`.  The input column
`df.prcp.values` is a list of NaN-able cells (`Option ℚ`); scipy's
`stats.gamma.fit` (with `floc=0`) and `stats.genpareto.fit` (with
`floc=thresh`) are oracles returning `(shape, scale)` pairs, `none`
modelling a raised exception.  The Gamma CDF and PDF used for the
crossover scale are likewise oracle functions `(x, shape, scale) ↦ ℚ`.
The `logger.critical` call plus the `df.to_csv(tmp)` dump of the failing
group are modelled as an emitted `FitLogEvent`. -/

/-- A critical-log event: the station/period identification interpolated
into the log message, and the data subset written to the temporary
postmortem file. -/
structure FitLogEvent where
  ident : String
  stored : List (Option ℚ)
  deriving DecidableEq, Repr

/-- The columns of the frame returned by `prcp_dist_params` (constant
columns are kept as single cells; `none` is NaN). -/
structure PrcpParams where
  n : ℕ
  ngamma : ℕ
  mean_wet : Option ℚ
  ngp : List (Option ℕ)
  gshape : Option ℚ
  gscale : Option ℚ
  pshape : List (Option ℚ)
  pscale : List (Option ℚ)
  pscale_orig : List (Option ℚ)
  deriving DecidableEq, Repr

/-- `vals = df.prcp.values[~np.isnan(...)]` then `vals = vals[vals > 0]`:
the positive (wet-day) precipitation samples of a group. -/
def wetVals (raw : List (Option ℚ)) : List ℚ :=
  ((raw.filterMap id).filter (fun v => 0 < v))

/-- `len(vals[vals >= thresh])` : the number of wet samples at or above a
threshold. -/
def exceedCount (raw : List (Option ℚ)) (t : ℚ) : ℕ :=
  ((wetVals raw).filter (fun v => t ≤ v)).length

/-- The loop body over one threshold, reached only after a successful
Gamma fit: returns `(ngp, pshape, pscale, pscale_orig)` for this
threshold together with the log events it emitted. -/
def fitOneThresh (paretoFit : ℚ → List ℚ → Option (ℚ × ℚ))
    (gammaCdf gammaPdf : ℚ → ℚ → ℚ → ℚ) (gs gc : ℚ)
    (ident : String) (raw : List (Option ℚ)) (vals : List ℚ) (t : ℚ) :
    (ℕ × Option ℚ × Option ℚ × Option ℚ) × List FitLogEvent :=
  let arr := vals.filter (fun v => t ≤ v)
  if arr.length > 10 then
    match paretoFit t arr with
    | none => ((arr.length, none, none, none), [⟨ident, raw⟩])
    | some (ps, pso) =>
        ((arr.length, some ps,
          some ((1 - gammaCdf t gs gc) / gammaPdf t gs gc),
          some pso), [])
  else ((arr.length, none, none, none), [])

/-- `vals.mean()` on the wet samples: NaN on the empty array. -/
def prcpMeanWet (raw : List (Option ℚ)) : Option ℚ :=
  if (wetVals raw).isEmpty then none
  else some ((wetVals raw).sum / (wetVals raw).length)

/-- The result frame with every fitted parameter left at its NaN
initialisation (`n`, `ngamma` and `mean_wet` are computed before any
fit is attempted and are always emitted). -/
def emptyPrcpParams (raw : List (Option ℚ)) (threshs : List ℚ) :
    PrcpParams where
  n := (raw.filterMap id).length * threshs.length
  ngamma := (wetVals raw).length
  mean_wet := prcpMeanWet raw
  ngp := List.replicate threshs.length none
  gshape := none
  gscale := none
  pshape := List.replicate threshs.length none
  pscale := List.replicate threshs.length none
  pscale_orig := List.replicate threshs.length none

/-- `PrcpDistParams.prcp_dist_params` for one station-month group. -/
def prcp_dist_params (gammaFit : List ℚ → Option (ℚ × ℚ))
    (paretoFit : ℚ → List ℚ → Option (ℚ × ℚ))
    (gammaCdf gammaPdf : ℚ → ℚ → ℚ → ℚ)
    (ident : String) (raw : List (Option ℚ)) (threshs : List ℚ) :
    PrcpParams × List FitLogEvent :=
  if (wetVals raw).length > 10 then
    match gammaFit (wetVals raw) with
    | none => (emptyPrcpParams raw threshs, [⟨ident, raw⟩])
    | some (gs, gc) =>
        let rs := threshs.map
          (fitOneThresh paretoFit gammaCdf gammaPdf gs gc ident raw
            (wetVals raw))
        ({ n := (raw.filterMap id).length * threshs.length,
           ngamma := (wetVals raw).length,
           mean_wet := prcpMeanWet raw,
           ngp := rs.map (fun r => some r.1.1),
           gshape := some gs, gscale := some gc,
           pshape := rs.map (fun r => r.1.2.1),
           pscale := rs.map (fun r => r.1.2.2.1),
           pscale_orig := rs.map (fun r => r.1.2.2.2) },
         (rs.map (fun r => r.2)).flatten)
  else (emptyPrcpParams raw threshs, [])

/-- `df.groupby(level=['id', 'month']).apply(func)` : every group is
processed, independently of failures in other groups. -/
def prcpAllGroups (gammaFit : List ℚ → Option (ℚ × ℚ))
    (paretoFit : ℚ → List ℚ → Option (ℚ × ℚ))
    (gammaCdf gammaPdf : ℚ → ℚ → ℚ → ℚ) (threshs : List ℚ)
    (groups : List (String × List (Option ℚ))) :
    List (PrcpParams × List FitLogEvent) :=
  groups.map (fun g =>
    prcp_dist_params gammaFit paretoFit gammaCdf gammaPdf g.1 g.2 threshs)

/-! ## ModelOrganizer.param : merging run results into the namelist

Embedding of the emission loop of `ModelOrganizer.param`:

    for key, val in task_nml.items():
        exp_nml.setdefault(key, OrderedDict()).update(val)

A namelist section is a finite map `String → Option α`; a task's
`task_nml` is its list of `(section, entries)` items, the entries being
the items of a Python `dict` (unique keys, in insertion order). -/

/-- A namelist section: a map from key to value. -/
abbrev NmlSection (α : Type) : Type := String → Option α

/-- The combined experiment namelist: a map from section name to
section. -/
abbrev Namelist (α : Type) : Type := String → Option (NmlSection α)

/-- The `task_nml` returned by one task's `run` step: its sections with
their entry lists. -/
abbrev TaskNml (α : Type) : Type := List (String × List (String × α))

/-- `OrderedDict.update(val)` : set each entry of `val` in turn. -/
def sectionUpdate {α : Type} (sec : NmlSection α)
    (val : List (String × α)) : NmlSection α :=
  val.foldl (fun s kv => fun k => if k = kv.1 then some kv.2 else s k) sec

/-- One iteration of the emission loop:
`exp_nml.setdefault(key, OrderedDict()).update(val)` for every
`(key, val)` item of `task_nml`. -/
def mergeTaskNml {α : Type} (exp : Namelist α) (task : TaskNml α) :
    Namelist α :=
  task.foldl
    (fun e kv => fun s =>
      if s = kv.1 then
        some (sectionUpdate ((e kv.1).getD (fun _ => none)) kv.2)
      else e s)
    exp

/-- The whole emission stage: fold the per-task run results, in task
order, into the (initially empty) experiment namelist. -/
def mergeRunResults {α : Type} (tasks : List (TaskNml α)) : Namelist α :=
  tasks.foldl mergeTaskNml (fun _ => none)

/-- Look a key up in a section of the combined namelist. -/
def nmlLookup {α : Type} (nml : Namelist α) (s k : String) : Option α :=
  (nml s).bind (fun sec => sec k)

/-- The value the last entry of an update list assigns to `k` (Python
dict semantics: later assignments win). -/
def lastAssoc {α : Type} (entries : List (String × α)) (k : String) :
    Option α :=
  entries.foldl (fun acc kv => if kv.1 = k then some kv.2 else acc) none

/-! ## ModelOrganizer.param : serial vs. parallel execution

`ModelOrganizer.param` splits the station list into chunks of at most
`max_stations` consecutive stations (`np.split`), maps the task chain
over the chunks, and merges the per-chunk datasets back.
`Parameterizer.process_data` and `TaskBase.setup_from_instances` live in
`gwgen/utils.py`, which is not part of the sources at hand; they are
modelled from the spec below. -/

/-- `np.split(stations, np.arange(max_stations, len(stations),
max_stations))` : consecutive chunks of at most `n` stations. -/
def chunkStations {σ : Type} : ℕ → List σ → List (List σ)
  | 0, _ => []
  | _ + 1, [] => []
  | n + 1, x :: t =>
      (x :: t).take (n + 1) :: chunkStations (n + 1) ((x :: t).drop (n + 1))
termination_by _ xs => xs.length
decreasing_by
  simp only [List.drop_succ_cons, List.length_drop, List.length_cons]
  omega

/-- Modelled from the spec: a parallel-safe task's per-chunk dataset
(`TaskBase.process_data` in the missing `gwgen/utils.py`) is the
concatenation of the rows computed for each station of the chunk, the
computation of one station being independent of the rest of the chunk.
`f` maps a station to its rows. -/
def serial_rows {σ ρ : Type} (f : σ → List ρ) (stations : List σ) :
    List ρ :=
  stations.flatMap f

/-- Modelled from the spec: the merged dataset of a parallel run
(`TaskBase.setup_from_instances` in the missing `gwgen/utils.py`)
concatenates the per-chunk datasets in chunk submission order. -/
def parallel_merged_rows {σ ρ : Type} (f : σ → List ρ) (n : ℕ)
    (stations : List σ) : List ρ :=
  ((chunkStations n stations).map (fun c => serial_rows f c)).flatten

/-! ## The task registry and the dependency resolver

The `setup_requires` declarations of every task class of
`gwgen/parameterization.py`, keyed by task name. -/

/-- The declared prerequisite names (`setup_requires`) of each
registered parameterization task, from `gwgen/parameterization.py`. -/
def setup_requires : String → List String
  | "day" => []
  | "month" => ["day"]
  | "cmonth" => ["month"]
  | "yearly_cmonth" => ["month"]
  | "cday" => ["day", "month"]
  | "yearly_cday" => ["day", "month"]
  | "prcp" => ["cday"]
  | "markov" => ["cday"]
  | "temp" => ["cday"]
  | "hourly_cloud" => []
  | "daily_cloud" => ["hourly_cloud"]
  | "monthly_cloud" => ["daily_cloud"]
  | "cmonthly_cloud" => ["monthly_cloud"]
  | "yearly_cmonthly_cloud" => ["cmonthly_cloud"]
  | "cloud" => ["cmonthly_cloud"]
  | "cdaily_cloud" => ["daily_cloud", "monthly_cloud"]
  | "yearly_cdaily_cloud" => ["cdaily_cloud", "cmonthly_cloud"]
  | "corr" => ["yearly_cdaily_cloud"]
  | _ => []

/-- Modelled from the spec: the dependency resolver
(`TaskBase.sort_by_requirement` / requirement gathering in the missing
`gwgen/utils.py`): "given a set of requested task names, returns an
ordered sequence covering every requested task and every transitive
prerequisite exactly once, such that each task appears after all of its
prerequisites".  Depth-first emission of prerequisites before the task;
the fuel bounds the recursion depth by the registry size. -/
def resolveVisit : ℕ → List String → String → List String
  | 0, acc, _ => acc
  | fuel + 1, acc, t =>
      if t ∈ acc then acc
      else ((setup_requires t).foldl (resolveVisit fuel) acc) ++ [t]

/-- Resolve a requested task list to its dependency-ordered transitive
prerequisite closure. -/
def resolve_tasks (requested : List String) : List String :=
  requested.foldl (resolveVisit 32) []

/-- The prerequisite chain the specification claims for the
cross-correlation task. -/
def claimedCorrChain : List String :=
  ["day", "month", "cday", "hourly_cloud", "daily_cloud", "monthly_cloud",
   "cmonthly_cloud", "yearly_cmonthly_cloud", "cdaily_cloud",
   "yearly_cdaily_cloud"]

/-- An ordering respects the declared prerequisite edges when every
listed task appears after each of its declared prerequisites. -/
def respectsPrereqs (l : List String) : Prop :=
  ∀ i : Fin l.length, ∀ r ∈ setup_requires (l.get i),
    ∃ j : Fin l.length, (j : ℕ) < (i : ℕ) ∧ l.get j = r

instance (l : List String) : Decidable (respectsPrereqs l) := by
  unfold respectsPrereqs; infer_instance

/-! ## CrossCorrelation.run : the AR coefficient and Cholesky factor

Embedding of `CrossCorrelation.run`.  `self.data` holds the lag-0
correlation matrix `m0` (columns `tmin, tmax, mean_cloud`) and the
lag-1 matrix `m1` (columns `tmin1, tmax1, mean_cloud1`); the run step
computes

    m0i = np.linalg.inv(m0)
    nml['a'] = np.dot(m1, m0i)
    nml['b'] = np.linalg.cholesky(m0 - np.dot(np.dot(m1, m0i), m1.T)).T

`np.linalg.cholesky` returns the unique lower-triangular `L` with
positive diagonal such that `L·Lᵀ` is its argument; it is modelled by
passing such an `L` explicitly. -/

/-- A 3×3 rational matrix (the variable set is fixed to
`tmin, tmax, mean_cloud`). -/
def Mat3 : Type := Fin 3 → Fin 3 → ℚ

instance : DecidableEq Mat3 := by unfold Mat3; infer_instance

/-- Matrix product. -/
def mat3Mul (A B : Mat3) : Mat3 := fun i j =>
  A i 0 * B 0 j + A i 1 * B 1 j + A i 2 * B 2 j

/-- Matrix transpose. -/
def mat3T (A : Mat3) : Mat3 := fun i j => A j i

/-- Matrix difference. -/
def mat3Sub (A B : Mat3) : Mat3 := fun i j => A i j - B i j

/-- The 3×3 identity. -/
def mat3Id : Mat3 := fun i j => if i = j then 1 else 0

/-- Determinant of a 3×3 matrix. -/
def det3 (A : Mat3) : ℚ :=
  A 0 0 * (A 1 1 * A 2 2 - A 1 2 * A 2 1) -
  A 0 1 * (A 1 0 * A 2 2 - A 1 2 * A 2 0) +
  A 0 2 * (A 1 0 * A 2 1 - A 1 1 * A 2 0)

/-- `np.linalg.inv` on a 3×3 matrix: adjugate over determinant. -/
def inv3 (A : Mat3) : Mat3 := fun i j =>
  (det3 A)⁻¹ *
    (![![A 1 1 * A 2 2 - A 1 2 * A 2 1, A 0 2 * A 2 1 - A 0 1 * A 2 2,
        A 0 1 * A 1 2 - A 0 2 * A 1 1],
      ![A 1 2 * A 2 0 - A 1 0 * A 2 2, A 0 0 * A 2 2 - A 0 2 * A 2 0,
        A 0 2 * A 1 0 - A 0 0 * A 1 2],
      ![A 1 0 * A 2 1 - A 1 1 * A 2 0, A 0 1 * A 2 0 - A 0 0 * A 2 1,
        A 0 0 * A 1 1 - A 0 1 * A 1 0]] : Mat3) i j

/-- `nml['a'] = np.dot(m1, np.linalg.inv(m0))`. -/
def corrRunA (m0 m1 : Mat3) : Mat3 := mat3Mul m1 (inv3 m0)

/-- The innovation covariance `m0 - np.dot(np.dot(m1, m0i), m1.T)`,
i.e. `M0 − a·M1ᵗ`. -/
def innovCov (m0 m1 : Mat3) : Mat3 :=
  mat3Sub m0 (mat3Mul (corrRunA m0 m1) (mat3T m1))

/-- `nml['b'] = np.linalg.cholesky(...).T` : the emitted `b` is the
TRANSPOSE of the lower-triangular Cholesky factor `L` returned by
`np.linalg.cholesky`. -/
def corrRunB (L : Mat3) : Mat3 := mat3T L

/-- `L` is lower triangular. -/
def lowerTriangular (L : Mat3) : Prop :=
  ∀ i j : Fin 3, (i : ℕ) < (j : ℕ) → L i j = 0

instance (L : Mat3) : Decidable (lowerTriangular L) := by
  unfold lowerTriangular; infer_instance

/-! Helper lemmas for the temperature-range claim. -/

theorem selfDiff_eq_zeroes (xs : List ℚ) :
    selfDiff xs = List.replicate xs.length 0 := by
  induction xs with
  | nil => rfl
  | cons a t ih =>
      show (a - a) :: selfDiff t = 0 :: List.replicate t.length 0
      rw [sub_self, ih]

theorem npMean_replicate_zero (n : ℕ) (hn : n ≠ 0) :
    npMean (List.replicate n (0 : ℚ)) = some 0 := by
  simp [npMean, List.isEmpty_iff, hn, List.sum_replicate]

theorem npVar_replicate_zero (n : ℕ) (hn : n ≠ 0) :
    npVar (List.replicate n (0 : ℚ)) = some 0 := by
  unfold npVar
  rw [List.map_replicate]
  simp only [List.sum_replicate, smul_zero, zero_div, sub_zero,
    zero_pow (by norm_num : (2 : ℕ) ≠ 0)]
  exact npMean_replicate_zero n hn

/-- **C9** — In the temperature task's per-month statistics, the wet-day
and dry-day temperature-range outputs (`trange_wet`, `trangestddev_wet`,
`trange_dry`, `trangestddev_dry`) are identically 0 for every input with
at least one wet (resp. dry) day, because they are computed from the
difference of the max-temperature array with itself. -/
theorem trange_outputs_identically_zero (sqrtFn : ℚ → ℚ)
    (rows : List TempRow) (hsqrt : sqrtFn 0 = 0) :
    (tmaxWet rows ≠ [] →
      trange_wet rows = some 0 ∧
      trangestddev_wet sqrtFn rows = some 0) ∧
    (tmaxDry rows ≠ [] →
      trange_dry rows = some 0 ∧
      trangestddev_dry sqrtFn rows = some 0) := by
  have key : ∀ xs : List ℚ, xs ≠ [] →
      npMean (selfDiff xs) = some 0 ∧
      npStd sqrtFn (selfDiff xs) = some 0 := by
    intro xs hxs
    have hn : xs.length ≠ 0 := fun hl => hxs (List.length_eq_zero.mp hl)
    constructor
    · rw [selfDiff_eq_zeroes, npMean_replicate_zero _ hn]
    · rw [npStd, selfDiff_eq_zeroes, npVar_replicate_zero _ hn,
        Option.map_some', hsqrt]
  exact ⟨fun h => key _ h, fun h => key _ h⟩

/-- Witness for C9 at a concrete month: one wet day and one dry day. -/
theorem trange_outputs_identically_zero_witness :
    trange_wet [⟨1, 2, 8⟩, ⟨0, 1, 5⟩] = some 0 ∧
    trangestddev_wet id [⟨1, 2, 8⟩, ⟨0, 1, 5⟩] = some 0 ∧
    trange_dry [⟨1, 2, 8⟩, ⟨0, 1, 5⟩] = some 0 ∧
    trangestddev_dry id [⟨1, 2, 8⟩, ⟨0, 1, 5⟩] = some 0 := by
  have h := trange_outputs_identically_zero id
    [⟨1, 2, 8⟩, ⟨0, 1, 5⟩] rfl
  have hw := h.1 (by decide)
  have hd := h.2 (by decide)
  exact ⟨hw.1, hw.2, hd.1, hd.2⟩

/-! Helper lemma for the wet-day claim. -/

theorem wwWetCond_iff_specWetCode (c : ℤ) :
    wwWetCond c = true ↔ specWetCode c := by
  simp only [wwWetCond, specWetCode, Bool.or_eq_true, Bool.and_eq_true,
    decide_eq_true_eq, beq_iff_eq]
  omega

/-- **C10** — A calendar day is flagged wet (`wet_day = 1`) iff some
hourly `ww` code satisfies `50 ≤ ww ≤ 75`, `ww = 77`, `ww = 79` or
`80 ≤ ww ≤ 99`; a day with no qualifying hourly code (in particular one
whose codes are all 76 or 78) is dry (`wet_day = 0`). -/
theorem wetDay_iff (ww : List ℤ) :
    (wetDay ww = 1 ↔ ∃ c ∈ ww, specWetCode c) ∧
    (wetDay ww = 0 ↔ ¬ ∃ c ∈ ww, specWetCode c) := by
  have hany : ww.any wwWetCond = true ↔ ∃ c ∈ ww, specWetCode c := by
    rw [List.any_eq_true]
    exact exists_congr fun c => and_congr_right fun _ =>
      wwWetCond_iff_specWetCode c
  by_cases h : ww.any wwWetCond
  · have h' := hany.mp h
    rw [wetDay, if_pos h]
    exact ⟨iff_of_true rfl h', iff_of_false (by omega) (not_not_intro h')⟩
  · have h' : ¬ ∃ c ∈ ww, specWetCode c := fun hc => h (hany.mpr hc)
    rw [wetDay, if_neg h]
    exact ⟨iff_of_false (by omega) h', iff_of_true rfl h'⟩

/-- Witness for C10: codes 76 and 78 do not make a day wet, code 81
does. -/
theorem wetDay_iff_witness :
    wetDay [76, 78] = 0 ∧ wetDay [76, 78, 81] = 1 := by
  refine ⟨(wetDay_iff [76, 78]).2.mpr (by decide),
    (wetDay_iff [76, 78, 81]).1.mpr ?_⟩
  exact ⟨81, by decide, by decide⟩

/-! Helper lemmas for the Markov-chain claims. -/

theorem length_filter_mono {α : Type} (l : List α) (p q : α → Bool)
    (h : ∀ a, p a = true → q a = true) :
    (l.filter p).length ≤ (l.filter q).length :=
  (List.monotone_filter_right l h).length_le

theorem length_filter_eq_countIdx (l : List ℚ) (p : ℚ → Bool) :
    (l.filter p).length =
      ((List.range l.length).filter (fun i => p (l.getD i 0))).length := by
  induction l with
  | nil => rfl
  | cons a t ih =>
    show (List.filter p (a :: t)).length =
      (List.filter (fun i => p ((a :: t).getD i 0))
        (List.range (t.length + 1))).length
    rw [List.range_succ_eq_map, List.filter_cons, List.filter_cons]
    have hmap : (List.filter (fun i => p ((a :: t).getD i 0))
        ((List.range t.length).map Nat.succ)).length =
        (List.filter (fun i => p (t.getD i 0))
          (List.range t.length)).length := by
      rw [List.filter_map, List.length_map]
      rfl
    by_cases hp : p a
    · simp only [List.getD_cons_zero, hp, if_true, List.length_cons, hmap, ih]
    · simp only [List.getD_cons_zero, hp, Bool.false_eq_true, if_false, hmap,
        ih]

theorem sliceCount_eq (v : List ℚ) (p : ℚ → Bool) :
    (v.dropLast.filter p).length =
      ((List.range (v.length - 1)).filter
        (fun i => p (v.getD i 0))).length := by
  rw [length_filter_eq_countIdx, List.length_dropLast]
  congr 1
  apply List.filter_congr
  intro i hi
  have hlt : i < v.length - 1 := List.mem_range.mp hi
  have h1 : i < v.dropLast.length := by rw [List.length_dropLast]; exact hlt
  have h2 : i < v.length := lt_of_lt_of_le hlt (Nat.sub_le _ _)
  rw [List.getD_eq_getElem _ _ h1, List.getD_eq_getElem _ _ h2,
    List.getElem_dropLast]

theorem counts_np11_le_nwet (v : List ℚ) :
    (calc_ndays v).np11 ≤ (calc_ndays v).nwet := by
  show countPairs v (fun a b => isWet a && isWet b) ≤
    (v.dropLast.filter isWet).length
  rw [sliceCount_eq]
  exact length_filter_mono _ _ _ fun i h => (Bool.and_elim_left h)

theorem counts_np01_le_ndry (v : List ℚ) :
    (calc_ndays v).np01 ≤ (calc_ndays v).ndry := by
  show countPairs v (fun a b => isDry a && isWet b) ≤
    (v.dropLast.filter isDry).length
  rw [sliceCount_eq]
  exact length_filter_mono _ _ _ fun i h => (Bool.and_elim_left h)

theorem counts_nwet_le_n (v : List ℚ) :
    (calc_ndays v).nwet ≤ (calc_ndays v).n :=
  le_trans (List.length_filter_le _ _)
    (le_trans (le_of_eq (List.length_dropLast v)) (Nat.sub_le _ _))

theorem sum_counts_np11_le_nwet (groups : List (List ℚ)) :
    (sumCounts groups).np11 ≤ (sumCounts groups).nwet :=
  List.sum_le_sum fun g _ => counts_np11_le_nwet g

theorem sum_counts_np01_le_ndry (groups : List (List ℚ)) :
    (sumCounts groups).np01 ≤ (sumCounts groups).ndry :=
  List.sum_le_sum fun g _ => counts_np01_le_ndry g

theorem sum_counts_nwet_le_n (groups : List (List ℚ)) :
    (sumCounts groups).nwet ≤ (sumCounts groups).n :=
  List.sum_le_sum fun g _ => counts_nwet_le_n g

theorem sum_counts_np001_le_denom (groups : List (List ℚ)) :
    (sumCounts groups).np001 ≤ (sumCounts groups).np001_denom :=
  List.sum_le_sum fun _ _ => Nat.le_add_right _ _

theorem sum_counts_np101_le_denom (groups : List (List ℚ)) :
    (sumCounts groups).np101 ≤ (sumCounts groups).np101_denom :=
  List.sum_le_sum fun _ _ => Nat.le_add_right _ _

theorem ratio_mem_unit (x y : ℕ) (hxy : x ≤ y) :
    0 ≤ (if y > 0 then (x : ℚ) / y else 0) ∧
    (if y > 0 then (x : ℚ) / y else 0) ≤ 1 := by
  by_cases hy : y > 0
  · rw [if_pos hy]
    have hy' : (0 : ℚ) < y := by exact_mod_cast hy
    exact ⟨div_nonneg (by positivity) hy'.le,
      (div_le_one hy').mpr (by exact_mod_cast hxy)⟩
  · rw [if_neg hy]
    norm_num

/-- **C4** — For every station-month group the Markov-chain task emits
(more than 10 pooled year-month groups), each of `p11, p01, p001, p101,
wetf` lies in `[0, 1]`, and each equals exactly `0` whenever its
denominator count (`nwet, ndry, np001_denom, np101_denom, n`
respectively) is `0`. -/
theorem markov_ratios_in_unit_and_zero_on_zero_denom
    (groups : List (List ℚ)) (r : MarkovRatios)
    (h : calculate_probabilities groups = some r) :
    ((0 ≤ r.p11 ∧ r.p11 ≤ 1) ∧ (0 ≤ r.p01 ∧ r.p01 ≤ 1) ∧
     (0 ≤ r.p001 ∧ r.p001 ≤ 1) ∧ (0 ≤ r.p101 ∧ r.p101 ≤ 1) ∧
     (0 ≤ r.wetf ∧ r.wetf ≤ 1)) ∧
    (((sumCounts groups).nwet = 0 → r.p11 = 0) ∧
     ((sumCounts groups).ndry = 0 → r.p01 = 0) ∧
     ((sumCounts groups).np001_denom = 0 → r.p001 = 0) ∧
     ((sumCounts groups).np101_denom = 0 → r.p101 = 0) ∧
     ((sumCounts groups).n = 0 → r.wetf = 0)) := by
  have hr : r = markovRatios groups := by
    unfold calculate_probabilities at h
    by_cases hg : groups.length > 10
    · rw [if_pos hg] at h
      exact (Option.some_injective _ h).symm
    · rw [if_neg hg] at h
      exact absurd h (by simp)
  subst hr
  unfold markovRatios
  refine ⟨⟨ratio_mem_unit _ _ (sum_counts_np11_le_nwet groups),
    ratio_mem_unit _ _ (sum_counts_np01_le_ndry groups),
    ratio_mem_unit _ _ (sum_counts_np001_le_denom groups),
    ratio_mem_unit _ _ (sum_counts_np101_le_denom groups),
    ratio_mem_unit _ _ (sum_counts_nwet_le_n groups)⟩,
    fun h0 => ?_, fun h0 => ?_, fun h0 => ?_, fun h0 => ?_, fun h0 => ?_⟩ <;>
    simp only [h0, gt_iff_lt, lt_self_iff_false, if_false]

/-- Witness for C4: eleven pooled year-month groups `[1, 0, 1]`. -/
theorem markov_ratios_in_unit_witness :
    0 ≤ (markovRatios (List.replicate 11 [(1 : ℚ), 0, 1])).wetf ∧
    (markovRatios (List.replicate 11 [(1 : ℚ), 0, 1])).wetf ≤ 1 := by
  have h := markov_ratios_in_unit_and_zero_on_zero_denom
    (List.replicate 11 [(1 : ℚ), 0, 1])
    (markovRatios (List.replicate 11 [(1 : ℚ), 0, 1])) rfl
  exact h.1.2.2.2.2

/-- **C8** — A station-month group whose pooled `(year, month)` groups
number 10 or fewer yields the empty result frame instead of computed
transition probabilities. -/
theorem markov_few_groups_empty (groups : List (List ℚ))
    (h : groups.length ≤ 10) : calculate_probabilities groups = none := by
  unfold calculate_probabilities
  rw [if_neg]
  omega

/-- Witness for C8: exactly ten pooled groups give the empty result. -/
theorem markov_few_groups_empty_witness :
    calculate_probabilities (List.replicate 10 [(1 : ℚ)]) = none :=
  markov_few_groups_empty _ (by decide)

/-! Helper lemmas for the precipitation-distribution claims. -/

theorem getD_replicate_none (N i : ℕ) (h : i < N) :
    (List.replicate N (none : Option ℚ)).getD i (some 0) = none := by
  rw [List.getD_eq_getElem _ _ (by simpa using h), List.getElem_replicate]

theorem getD_map_opt (g : ℚ → Option ℚ) (l : List ℚ) (i : ℕ)
    (h : i < l.length) :
    (l.map g).getD i (some 0) = g (l.getD i 0) := by
  rw [List.getD_eq_getElem _ _ (by simpa using h),
    List.getD_eq_getElem _ _ h, List.getElem_map]

theorem fitOneThresh_of_few (paretoFit : ℚ → List ℚ → Option (ℚ × ℚ))
    (gammaCdf gammaPdf : ℚ → ℚ → ℚ → ℚ) (gs gc : ℚ) (ident : String)
    (raw : List (Option ℚ)) (vals : List ℚ) (t : ℚ)
    (h : ¬ ((vals.filter (fun v => t ≤ v)).length > 10)) :
    fitOneThresh paretoFit gammaCdf gammaPdf gs gc ident raw vals t =
      (((vals.filter (fun v => t ≤ v)).length, none, none, none), []) := by
  simp only [fitOneThresh]
  rw [if_neg h]

/-- **C5** — With 10 or fewer positive (wet-day) samples all fitted
Gamma and Generalized-Pareto parameters are NaN; and for each configured
threshold the Generalized Pareto is fitted only when the number of
exceedances at or above that threshold exceeds 10, the Pareto parameters
for that threshold being NaN otherwise. -/
theorem prcp_small_samples_give_nan
    (gammaFit : List ℚ → Option (ℚ × ℚ))
    (paretoFit : ℚ → List ℚ → Option (ℚ × ℚ))
    (gammaCdf gammaPdf : ℚ → ℚ → ℚ → ℚ)
    (ident : String) (raw : List (Option ℚ)) (threshs : List ℚ) :
    ((wetVals raw).length ≤ 10 →
      (prcp_dist_params gammaFit paretoFit gammaCdf gammaPdf ident raw
          threshs).1.gshape = none ∧
      (prcp_dist_params gammaFit paretoFit gammaCdf gammaPdf ident raw
          threshs).1.gscale = none ∧
      (prcp_dist_params gammaFit paretoFit gammaCdf gammaPdf ident raw
          threshs).1.pshape = List.replicate threshs.length none ∧
      (prcp_dist_params gammaFit paretoFit gammaCdf gammaPdf ident raw
          threshs).1.pscale = List.replicate threshs.length none ∧
      (prcp_dist_params gammaFit paretoFit gammaCdf gammaPdf ident raw
          threshs).1.pscale_orig = List.replicate threshs.length none) ∧
    (∀ i, i < threshs.length →
      exceedCount raw (threshs.getD i 0) ≤ 10 →
      (prcp_dist_params gammaFit paretoFit gammaCdf gammaPdf ident raw
          threshs).1.pshape.getD i (some 0) = none ∧
      (prcp_dist_params gammaFit paretoFit gammaCdf gammaPdf ident raw
          threshs).1.pscale.getD i (some 0) = none ∧
      (prcp_dist_params gammaFit paretoFit gammaCdf gammaPdf ident raw
          threshs).1.pscale_orig.getD i (some 0) = none) := by
  constructor
  · intro hle
    have hng : ¬ ((wetVals raw).length > 10) := by omega
    unfold prcp_dist_params
    rw [if_neg hng]
    exact ⟨rfl, rfl, rfl, rfl, rfl⟩
  · intro i hi hle
    have hrep : ∀ N : ℕ, i < N →
        ((List.replicate N (none : Option ℚ)).getD i (some 0) = none ∧
         (List.replicate N (none : Option ℚ)).getD i (some 0) = none ∧
         (List.replicate N (none : Option ℚ)).getD i (some 0) = none) :=
      fun N hN => ⟨getD_replicate_none N i hN, getD_replicate_none N i hN,
        getD_replicate_none N i hN⟩
    by_cases hng : (wetVals raw).length > 10
    · unfold prcp_dist_params
      rw [if_pos hng]
      cases hfit : gammaFit (wetVals raw) with
      | none => exact hrep threshs.length hi
      | some p =>
          obtain ⟨gs, gc⟩ := p
          simp only [List.map_map]
          have hfew : ¬ (((wetVals raw).filter
              (fun v => threshs.getD i 0 ≤ v)).length > 10) := by
            unfold exceedCount at hle
            omega
          have hone := fitOneThresh_of_few paretoFit gammaCdf gammaPdf gs gc
            ident raw (wetVals raw) (threshs.getD i 0) hfew
          refine ⟨?_, ?_, ?_⟩ <;>
            · rw [getD_map_opt _ threshs i hi]
              simp only [Function.comp_apply, hone]
    · unfold prcp_dist_params
      rw [if_neg hng]
      exact hrep threshs.length hi

/-- Witness for C5: two wet samples, one threshold, no fit attempted. -/
theorem prcp_small_samples_give_nan_witness :
    (prcp_dist_params (fun _ => some (1, 1)) (fun _ _ => some (1, 1))
        (fun _ _ _ => 0) (fun _ _ _ => 1) "st" [some 1, some 2]
        [5]).1.gshape = none ∧
    (prcp_dist_params (fun _ => some (1, 1)) (fun _ _ => some (1, 1))
        (fun _ _ _ => 0) (fun _ _ _ => 1) "st" [some 1, some 2]
        [5]).1.pshape.getD 0 (some 0) = none := by
  have h := prcp_small_samples_give_nan (fun _ => some (1, 1))
    (fun _ _ => some (1, 1)) (fun _ _ _ => 0) (fun _ _ _ => 1) "st"
    [some 1, some 2] [5]
  exact ⟨(h.1 (by decide)).1, (h.2 0 (by decide) (by decide)).1⟩

/-- **C6** — A failure of the Gamma or Generalized-Pareto fit for one
station-month group never aborts the run: the exception is caught, a
critical-log event carrying the group identification is emitted, the
offending data subset is dumped, the affected parameters stay NaN, and
the remaining thresholds and groups are still processed. -/
theorem prcp_fit_failure_recovered
    (gammaFit : List ℚ → Option (ℚ × ℚ))
    (paretoFit : ℚ → List ℚ → Option (ℚ × ℚ))
    (gammaCdf gammaPdf : ℚ → ℚ → ℚ → ℚ)
    (ident : String) (raw : List (Option ℚ)) (threshs : List ℚ)
    (gs gc : ℚ) (groups : List (String × List (Option ℚ))) :
    (10 < (wetVals raw).length → gammaFit (wetVals raw) = none →
      prcp_dist_params gammaFit paretoFit gammaCdf gammaPdf ident raw
        threshs = (emptyPrcpParams raw threshs, [⟨ident, raw⟩])) ∧
    (gammaFit (wetVals raw) = some (gs, gc) →
      10 < (wetVals raw).length →
      ∀ i, i < threshs.length →
        (prcp_dist_params gammaFit paretoFit gammaCdf gammaPdf ident raw
            threshs).1.pshape.getD i (some 0) =
          (fitOneThresh paretoFit gammaCdf gammaPdf gs gc ident raw
            (wetVals raw) (threshs.getD i 0)).1.2.1 ∧
        ((fitOneThresh paretoFit gammaCdf gammaPdf gs gc ident raw
            (wetVals raw) (threshs.getD i 0)).2 = [⟨ident, raw⟩] →
          FitLogEvent.mk ident raw ∈
            (prcp_dist_params gammaFit paretoFit gammaCdf gammaPdf ident
              raw threshs).2)) ∧
    ((prcpAllGroups gammaFit paretoFit gammaCdf gammaPdf threshs
        groups).length = groups.length ∧
     ∀ j : ℕ, ∀ g : String × List (Option ℚ), groups[j]? = some g →
       (prcpAllGroups gammaFit paretoFit gammaCdf gammaPdf threshs
          groups)[j]? =
         some (prcp_dist_params gammaFit paretoFit gammaCdf gammaPdf g.1
           g.2 threshs)) := by
  refine ⟨?_, ?_, ?_, ?_⟩
  · intro hng hfail
    unfold prcp_dist_params
    rw [if_pos hng, hfail]
  · intro hfit hng i hi
    unfold prcp_dist_params
    rw [if_pos hng, hfit]
    have hmem : threshs.getD i 0 ∈ threshs := by
      rw [List.getD_eq_getElem threshs 0 hi]
      exact List.getElem_mem hi
    constructor
    · simp only [List.map_map]
      rw [getD_map_opt _ threshs i hi]
      rfl
    · intro hev
      rw [List.mem_flatten]
      refine ⟨(fitOneThresh paretoFit gammaCdf gammaPdf gs gc ident raw
        (wetVals raw) (threshs.getD i 0)).2, ?_, by rw [hev]; exact .head _⟩
      simp only [List.map_map, List.mem_map]
      exact ⟨threshs.getD i 0, hmem, rfl⟩
  · simp [prcpAllGroups]
  · intro j g hj
    simp only [prcpAllGroups, List.getElem?_map, hj, Option.map_some']

/-- Witness for C6: twelve wet samples, the Gamma fit raises; the group
still yields its all-NaN row and the postmortem log event. -/
theorem prcp_fit_failure_recovered_witness :
    prcp_dist_params (fun _ => none) (fun _ _ => some (1, 1))
        (fun _ _ _ => 0) (fun _ _ _ => 1) "st"
        (List.replicate 12 (some 1)) [] =
      (emptyPrcpParams (List.replicate 12 (some 1)) [],
       [⟨"st", List.replicate 12 (some 1)⟩]) := by
  have h := prcp_fit_failure_recovered (fun _ => none)
    (fun _ _ => some (1, 1)) (fun _ _ _ => 0) (fun _ _ _ => 1) "st"
    (List.replicate 12 (some 1)) [] 1 1 []
  exact h.1 (by decide) rfl

/-! Helper lemmas for the namelist-merge claim. -/

theorem lastAssoc_foldl_init {α : Type} (rest : List (String × α))
    (k : String) (acc : Option α) :
    rest.foldl (fun a kv => if kv.1 = k then some kv.2 else a) acc =
      (rest.foldl (fun a kv => if kv.1 = k then some kv.2 else a)
        none).elim acc some := by
  induction rest generalizing acc with
  | nil => rfl
  | cons kv rest ih =>
      show rest.foldl _ (if kv.1 = k then some kv.2 else acc) = _
      rw [ih (if kv.1 = k then some kv.2 else acc),
        show (List.foldl (fun a kv => if kv.1 = k then some kv.2 else a)
          none (kv :: rest)) = rest.foldl
            (fun a kv => if kv.1 = k then some kv.2 else a)
            (if kv.1 = k then some kv.2 else none) from rfl,
        ih (if kv.1 = k then some kv.2 else none)]
      cases hrest : rest.foldl (fun a kv => if kv.1 = k then some kv.2 else a)
        none with
      | some v => rfl
      | none =>
          by_cases hk : kv.1 = k
          · rw [if_pos hk, if_pos hk]
            rfl
          · rw [if_neg hk, if_neg hk]
            rfl

theorem sectionUpdate_lookup {α : Type} (entries : List (String × α))
    (sec : NmlSection α) (k : String) :
    sectionUpdate sec entries k =
      (lastAssoc entries k).elim (sec k) some := by
  induction entries generalizing sec with
  | nil => rfl
  | cons kv rest ih =>
      show sectionUpdate (fun k' => if k' = kv.1 then some kv.2 else sec k')
        rest k = _
      rw [ih]
      show _ = (List.foldl _ (if kv.1 = k then some kv.2 else none)
        rest).elim (sec k) some
      rw [lastAssoc_foldl_init,
        show rest.foldl (fun a kv => if kv.1 = k then some kv.2 else a)
          none = lastAssoc rest k from rfl]
      cases hrest : lastAssoc rest k with
      | some v => rfl
      | none =>
          by_cases hk : kv.1 = k
          · rw [if_pos hk]
            show (if k = kv.1 then some kv.2 else sec k) = some kv.2
            rw [if_pos hk.symm]
          · rw [if_neg hk]
            show (if k = kv.1 then some kv.2 else sec k) = sec k
            rw [if_neg (fun hkk => hk hkk.symm)]

theorem mergeRunResults_append {α : Type} (ts : List (TaskNml α))
    (t : TaskNml α) :
    mergeRunResults (ts ++ [t]) = mergeTaskNml (mergeRunResults ts) t := by
  unfold mergeRunResults
  rw [List.foldl_append]
  rfl

theorem mergeTaskNml_single_lookup {α : Type} (e : Namelist α) (s : String)
    (entries : List (String × α)) (k : String) :
    nmlLookup (mergeTaskNml e [(s, entries)]) s k =
      (lastAssoc entries k).elim (nmlLookup e s k) some := by
  show ((if s = s then some (sectionUpdate ((e s).getD (fun _ => none))
      entries) else e s).bind (fun sec => sec k)) = _
  rw [if_pos rfl]
  show sectionUpdate ((e s).getD (fun _ => none)) entries k = _
  rw [sectionUpdate_lookup,
    show ((e s).getD (fun _ => none)) k = nmlLookup e s k from by
      unfold nmlLookup
      cases e s with
      | none => rfl
      | some sec => rfl]

/-- **C7 (counterexample)** — A key set in section `weathergen_ctl` by an
earlier task IS silently overwritten by a later task that sets the same
key: `dict.update` semantics keep the later value. -/
theorem nml_overwrite_counterexample :
    nmlLookup (mergeRunResults
      [[("weathergen_ctl", [("g_scale_coeff", (1 : ℤ))])]])
      "weathergen_ctl" "g_scale_coeff" = some 1 ∧
    nmlLookup (mergeRunResults
      [[("weathergen_ctl", [("g_scale_coeff", (1 : ℤ))])],
       [("weathergen_ctl", [("g_scale_coeff", 2)])]])
      "weathergen_ctl" "g_scale_coeff" = some 2 ∧ (2 : ℤ) ≠ 1 :=
  ⟨by decide, by decide, by decide⟩

/-- **C7 (amended)** — Run results are merged section-by-section with
later tasks updating or adding entries; when a later task sets a key
that an earlier task had already set in the same section, the later
task's value silently wins (last writer wins). -/
theorem namelist_last_writer_wins {α : Type} (ts : List (TaskNml α))
    (s k : String) (entries : List (String × α)) (v : α)
    (hv : lastAssoc entries k = some v) :
    nmlLookup (mergeRunResults (ts ++ [[(s, entries)]])) s k = some v := by
  rw [mergeRunResults_append, mergeTaskNml_single_lookup, hv]
  rfl

/-- Witness for the amended C7. -/
theorem namelist_last_writer_wins_witness :
    nmlLookup (mergeRunResults
      [[("weathergen_ctl", [("g_scale_coeff", (1 : ℤ))])],
       [("weathergen_ctl", [("g_scale_coeff", 2)])]])
      "weathergen_ctl" "g_scale_coeff" = some 2 :=
  namelist_last_writer_wins
    [[("weathergen_ctl", [("g_scale_coeff", (1 : ℤ))])]]
    "weathergen_ctl" "g_scale_coeff" [("g_scale_coeff", 2)] 2 (by decide)

/-! Helper lemmas for the serial/parallel claim. -/

theorem chunkStations_flatten {σ : Type} (n : ℕ) (xs : List σ) :
    (chunkStations n xs).flatten = (if n = 0 then [] else xs) := by
  induction n, xs using chunkStations.induct with
  | case1 xs => simp [chunkStations]
  | case2 n => simp [chunkStations]
  | case3 n x t ih =>
      rw [chunkStations, List.flatten_cons, ih, if_neg (Nat.succ_ne_zero n),
        if_neg (Nat.succ_ne_zero n)]
      exact List.take_append_drop _ _

theorem flatten_map_flatMap {σ ρ : Type} (f : σ → List ρ)
    (cs : List (List σ)) :
    ((cs.map (fun c => c.flatMap f)).flatten) = cs.flatten.flatMap f := by
  induction cs with
  | nil => rfl
  | cons c cs ih =>
      simp only [List.map_cons, List.flatten_cons, List.flatMap_append,
        List.flatten, ih]

/-- **C2** — For every station list, per-station row computation and
positive chunk size, the merged dataset of a parallel run is a
permutation of the serial run's dataset: after normalising order the row
sets coincide (here they are even equal as lists, since merging
concatenates the chunks in submission order). -/
theorem parallel_merge_perm_serial {σ ρ : Type} (f : σ → List ρ) (n : ℕ)
    (stations : List σ) (h : 0 < n) :
    (parallel_merged_rows f n stations).Perm (serial_rows f stations) := by
  unfold parallel_merged_rows serial_rows
  rw [flatten_map_flatMap, chunkStations_flatten, if_neg (by omega)]

/-- Witness for C2: three stations, chunk size two. -/
theorem parallel_merge_perm_serial_witness :
    (parallel_merged_rows (fun s => [s, s + 10]) 2 [1, 2, 3]).Perm
      (serial_rows (fun s : ℕ => [s, s + 10]) [1, 2, 3]) :=
  parallel_merge_perm_serial (fun s => [s, s + 10]) 2 [1, 2, 3]
    (by decide)

/-- **C3 (counterexample)** — The chain the specification claims for the
cross-correlation task contains `day`, `month`, `cday` and
`yearly_cmonthly_cloud`, none of which is a transitive prerequisite of
`corr` under the declared `setup_requires` edges, so the resolved
closure of `corr` does not contain them. -/
theorem corr_chain_claim_false :
    "day" ∈ claimedCorrChain ∧ "day" ∉ resolve_tasks ["corr"] ∧
    "cday" ∈ claimedCorrChain ∧ "cday" ∉ resolve_tasks ["corr"] ∧
    "yearly_cmonthly_cloud" ∈ claimedCorrChain ∧
    "yearly_cmonthly_cloud" ∉ resolve_tasks ["corr"] := by decide

/-- **C3 (amended)** — Requesting the cross-correlation task resolves to
exactly the prerequisite closure `[hourly_cloud, daily_cloud,
monthly_cloud, cdaily_cloud, cmonthly_cloud, yearly_cdaily_cloud]`
followed by `corr` itself, each task appearing exactly once, in an order
where every task appears after all of its declared prerequisites. -/
theorem corr_chain_resolution :
    resolve_tasks ["corr"] =
      ["hourly_cloud", "daily_cloud", "monthly_cloud", "cdaily_cloud",
       "cmonthly_cloud", "yearly_cdaily_cloud", "corr"] ∧
    (resolve_tasks ["corr"]).Nodup ∧
    respectsPrereqs (resolve_tasks ["corr"]) := by decide

/-! Helper lemmas for the cross-correlation claim. -/

theorem finMkZero : (⟨0, by norm_num⟩ : Fin 3) = 0 := rfl

theorem finMkOne : (⟨1, by norm_num⟩ : Fin 3) = 1 := rfl

theorem finMkTwo : (⟨2, by norm_num⟩ : Fin 3) = 2 := rfl

/-- `inv3` really is `np.linalg.inv` on invertible 3×3 matrices. -/
theorem inv3_correct (A : Mat3) (h : det3 A ≠ 0) :
    mat3Mul A (inv3 A) = mat3Id := by
  funext i j
  fin_cases i <;> fin_cases j <;>
    · simp only [finMkTwo, finMkOne, finMkZero, mat3Mul, inv3, mat3Id,
        Matrix.cons_val_zero, Matrix.cons_val_one, Matrix.head_cons,
        Matrix.cons_val_two, Matrix.tail_cons]
      split_ifs with hij <;>
        first
          | exact absurd hij (by decide)
          | (field_simp [det3] at h ⊢; try ring)

/-- The concrete lower-triangular Cholesky factor used for the C1
counterexample and witness: with `m0 = [[1, 3/5, 0], [3/5, 1, 0],
[0, 0, 1]]` and `m1 = 0` the innovation covariance is `m0` itself and
`L·Lᵀ = m0`. -/
theorem chol_factor_example :
    mat3Mul ![![1, 0, 0], ![3/5, 4/5, 0], ![0, 0, 1]]
        (mat3T ![![1, 0, 0], ![3/5, 4/5, 0], ![0, 0, 1]]) =
      innovCov ![![1, 3/5, 0], ![3/5, 1, 0], ![0, 0, 1]]
        (fun _ _ => 0) := by
  funext i j
  fin_cases i <;> fin_cases j <;>
    norm_num [finMkTwo, finMkOne, finMkZero, mat3Mul, mat3T, innovCov,
      corrRunA, corrRunB, mat3Sub, inv3, det3, Matrix.cons_val_zero,
      Matrix.cons_val_one, Matrix.head_cons]

/-- **C1 (counterexample)** — With `m0 = [[1, 3/5, 0], [3/5, 1, 0],
[0, 0, 1]]` and `m1 = 0`, `np.linalg.cholesky` returns the
lower-triangular positive-diagonal `L = [[1, 0, 0], [3/5, 4/5, 0],
[0, 0, 1]]` with `L·Lᵀ = M0 − a·M1ᵗ`, but the emitted `b = Lᵀ` does NOT
satisfy `b·bᵗ = M0 − a·M1ᵗ`. -/
theorem corr_emitted_b_not_lower_factor :
    mat3Mul ![![1, 0, 0], ![3/5, 4/5, 0], ![0, 0, 1]]
        (mat3T ![![1, 0, 0], ![3/5, 4/5, 0], ![0, 0, 1]]) =
      innovCov ![![1, 3/5, 0], ![3/5, 1, 0], ![0, 0, 1]] (fun _ _ => 0) ∧
    lowerTriangular ![![1, 0, 0], ![3/5, 4/5, 0], ![0, 0, 1]] ∧
    (∀ i : Fin 3,
      0 < (![![1, 0, 0], ![3/5, 4/5, 0], ![0, 0, 1]] : Mat3) i i) ∧
    ¬ (mat3Mul (corrRunB ![![1, 0, 0], ![3/5, 4/5, 0], ![0, 0, 1]])
        (mat3T (corrRunB ![![1, 0, 0], ![3/5, 4/5, 0], ![0, 0, 1]])) =
      innovCov ![![1, 3/5, 0], ![3/5, 1, 0], ![0, 0, 1]]
        (fun _ _ => 0)) := by
  refine ⟨chol_factor_example, ?_, ?_, ?_⟩
  · intro i j hij
    fin_cases i <;> fin_cases j <;> simp_all
  · intro i
    fin_cases i <;> norm_num [finMkTwo, finMkOne, finMkZero,
      Matrix.cons_val_zero, Matrix.cons_val_one, Matrix.head_cons]
  · intro hcontra
    have h00 := congrFun (congrFun hcontra 0) 0
    norm_num [finMkTwo, finMkOne, finMkZero, mat3Mul, mat3T, innovCov,
      corrRunA, corrRunB, mat3Sub, inv3, det3, Matrix.cons_val_zero,
      Matrix.cons_val_one, Matrix.head_cons] at h00

/-- **C1 (amended)** — In the cross-correlation run step the emitted AR
coefficient matrix `a` equals `M1 · inverse(M0)`, and the emitted matrix
`b` is the TRANSPOSE of the lower Cholesky factor of the innovation
covariance: `bᵗ·b = M0 − a·M1ᵗ` (not `b·bᵗ`). -/
theorem corr_run_coefficients (m0 m1 L : Mat3)
    (hL : mat3Mul L (mat3T L) = innovCov m0 m1) :
    corrRunA m0 m1 = mat3Mul m1 (inv3 m0) ∧
    mat3Mul (mat3T (corrRunB L)) (corrRunB L) = innovCov m0 m1 :=
  ⟨rfl, hL⟩

/-- Witness for the amended C1 at the concrete matrices of the
counterexample. -/
theorem corr_run_coefficients_witness :
    mat3Mul (mat3T (corrRunB ![![1, 0, 0], ![3/5, 4/5, 0], ![0, 0, 1]]))
        (corrRunB ![![1, 0, 0], ![3/5, 4/5, 0], ![0, 0, 1]]) =
      innovCov ![![1, 3/5, 0], ![3/5, 1, 0], ![0, 0, 1]]
        (fun _ _ => 0) :=
  (corr_run_coefficients ![![1, 3/5, 0], ![3/5, 1, 0], ![0, 0, 1]]
    (fun _ _ => 0) ![![1, 0, 0], ![3/5, 4/5, 0], ![0, 0, 1]]
    chol_factor_example).2

end Gwgen
